import Mathlib

/-!
Verification of the status-synchronisation engine of update_issues_fields.py.

The script keeps the status of a level-two JIRA issue (story, bug, spike)
consistent with the statuses of its subtasks, by scanning an ordered rule
table (STATUS_RULES) and performing at most one backend transition per
issue per run.  We embed the decision core shallowly: statuses are strings,
an issue is its key, its current status name and the list of its subtask
status names, and the backend transition call is recorded explicitly
(together with the possibility that the call raises, modelled by Except).
-/

/-- Status constant TO_DO of the script.  All constants are kept uppercase,
as in the source. -/
def TO_DO : String := "TO DO"

/-- Status constant BLOCKED of the script. -/
def BLOCKED : String := "BLOCKED"

/-- Status constant IN_PROGRESS of the script. -/
def IN_PROGRESS : String := "IN PROGRESS"

/-- Status constant DONE of the script. -/
def DONE : String := "DONE"

/-- Status constant ACCEPTED of the script. -/
def ACCEPTED : String := "ACCEPTED"

/-- MODIFIABLE_STATUS of the script: the statuses the engine may transition
away from. -/
def MODIFIABLE_STATUS : List String := [TO_DO, BLOCKED, IN_PROGRESS, DONE]

/-- NON_MODIFIABLE_STATUS of the script: protected statuses. -/
def NON_MODIFIABLE_STATUS : List String := [ACCEPTED]

/-- SUPPORTED_STATUS of the script: the whole recognised vocabulary,
MODIFIABLE_STATUS + NON_MODIFIABLE_STATUS. -/
def SUPPORTED_STATUS : List String := MODIFIABLE_STATUS ++ NON_MODIFIABLE_STATUS

/-- Rule-policy constant of the script. -/
def RULE_POLICY_AT_LEAST_ONE : String := "at_least_one"

/-- Rule-policy constant of the script. -/
def RULE_POLICY_ALL : String := "all"

/-- A STATUS_RULES entry: (TARGET_STATUS, (RULE_POLICY, POSSIBLE_STATUSES)).
The Python set of possible statuses is embedded as a list; only membership
in it is ever used. -/
abbrev Rule := String × String × List String

/-- STATUS_RULES of the script, in source order (order encodes priority,
first entry = highest priority). -/
def STATUS_RULES : List Rule :=
  [ (DONE, (RULE_POLICY_ALL, [DONE, ACCEPTED])),
    (TO_DO, (RULE_POLICY_ALL, [TO_DO])),
    (BLOCKED, (RULE_POLICY_AT_LEAST_ONE, [BLOCKED])),
    (IN_PROGRESS, (RULE_POLICY_AT_LEAST_ONE, [IN_PROGRESS])) ]

/-- A level-two issue as the engine reads it: its key, the name of its
current status (issue.fields.status.name) and the list of the current
status names of its subtasks (subt.fields.status.name for subt in
issue.fields.subtasks). -/
structure Issue where
  key : String
  status : String
  subtaskStatuses : List String

/-- Python str.upper as used on the ASCII status names: uppercase every
character. -/
def upstr (s : String) : String := String.mk (s.data.map Char.toUpper)

/-- isRuleApplicable of the script.  RULE_POLICY_ALL: the loop returns
False on the first subtask whose uppercased status is not in
possibleStatus, True otherwise.  RULE_POLICY_AT_LEAST_ONE: the loop
returns True on the first subtask whose uppercased status is in
possibleStatus, False otherwise.  Any other policy is logged and treated
as not applicable (returns False). -/
def isRuleApplicable (issue : Issue) (rulePolicy : String)
    (possibleStatus : List String) : Bool :=
  if rulePolicy = RULE_POLICY_ALL then
    issue.subtaskStatuses.all (fun subt => possibleStatus.contains (upstr subt))
  else if rulePolicy = RULE_POLICY_AT_LEAST_ONE then
    issue.subtaskStatuses.any (fun subt => possibleStatus.contains (upstr subt))
  else
    false

/-- The for-loop of updateStatusIfNeeded over STATUS_RULES: the first rule
for which isRuleApplicable holds wins (the loop breaks), and its target
status becomes newStatus; none if no rule is applicable. -/
def findFirstApplicable (issue : Issue) : List Rule → Option String
  | [] => none
  | (status, rulePolicy, possibleStatus) :: rest =>
      if isRuleApplicable issue rulePolicy possibleStatus then some status
      else findFirstApplicable issue rest

/-- updateStatusIfNeeded of the script.  transitionOk models the backend:
transitionOk key status is true when jira.transition_issue(key, status)
succeeds and false when it raises.  The result is the list of transition
calls that were issued, paired with either the Python return value
(issueStatus != newStatus) or the uncaught exception (Except.error) that a
failing transition call raises out of the function.  Note that the guard
before the transition compares newStatus and issueStatus with plain
string inequality, exactly as the source does (no .upper() there). -/
def updateStatusIfNeeded (transitionOk : String → String → Bool)
    (issue : Issue) (dryrun : Bool) : List (String × String) × Except String Bool :=
  if MODIFIABLE_STATUS.contains (upstr issue.status) then
    match findFirstApplicable issue STATUS_RULES with
    | some newStatus =>
        if (newStatus != issue.status) && !dryrun then
          if transitionOk issue.key newStatus then
            ([(issue.key, newStatus)], Except.ok (issue.status != newStatus))
          else
            ([(issue.key, newStatus)], Except.error issue.key)
        else
          ([], Except.ok (issue.status != newStatus))
    | none => ([], Except.ok false)
  else ([], Except.ok false)

/-- The backend oracle of a run in which every transition call succeeds. -/
def alwaysOk : String → String → Bool := fun _ _ => true

/-- The per-project issue loop of main: possibleChanges is incremented for
every issue examined, performedChanges for every issue whose
updateStatusIfNeeded returned True.  An exception raised by a transition
call inside updateStatusIfNeeded is not caught there, so it aborts the
whole loop. -/
def processIssues (transitionOk : String → String → Bool) (dryrun : Bool) :
    List Issue → Nat → Nat → Except String (Nat × Nat)
  | [], possibleChanges, performedChanges =>
      Except.ok (possibleChanges, performedChanges)
  | issue :: rest, possibleChanges, performedChanges =>
      match (updateStatusIfNeeded transitionOk issue dryrun).2 with
      | Except.error e => Except.error e
      | Except.ok changed =>
          processIssues transitionOk dryrun rest (possibleChanges + 1)
            (performedChanges + if changed then 1 else 0)

/-- One project of the main loop: counts start at zero. -/
def processProject (transitionOk : String → String → Bool)
    (issues : List Issue) (dryrun : Bool) : Except String (Nat × Nat) :=
  processIssues transitionOk dryrun issues 0 0

/-- The maxResults argument main passes to jira.search_issues. -/
def MAX_RESULTS : Nat := 1000

/-- The backend search collaborator as main invokes it: jira.search_issues
with maxResults=1000 returns at most the first 1000 matching issues.  The
truncation to the first MAX_RESULTS elements models the maxResults
parameter of the JIRA search API. -/
def searchIssues (backendIssues : List Issue) : List Issue :=
  backendIssues.take MAX_RESULTS

/-- The outer loop of main over project ids: a failing search is caught
(the except branch logs and continues with the next project), while an
exception escaping updateStatusIfNeeded is not caught anywhere and aborts
the run. -/
def runProjects (search : String → Except String (List Issue))
    (transitionOk : String → String → Bool) (dryrun : Bool) :
    List String → Except String (List (String × Nat × Nat))
  | [] => Except.ok []
  | p :: rest =>
      match search p with
      | Except.error _ => runProjects search transitionOk dryrun rest
      | Except.ok issues =>
          match processProject transitionOk issues dryrun with
          | Except.error e => Except.error e
          | Except.ok counts =>
              match runProjects search transitionOk dryrun rest with
              | Except.error e => Except.error e
              | Except.ok out => Except.ok ((p, counts) :: out)

/-- Whether one rule of the table is applicable to an issue. -/
def ruleApplies (issue : Issue) (r : Rule) : Bool :=
  isRuleApplicable issue r.2.1 r.2.2

example : upstr "Done" = DONE := by decide

example : updateStatusIfNeeded alwaysOk ⟨"K", "TO DO", ["DONE", "DONE"]⟩ false
    = ([("K", DONE)], Except.ok true) := rfl

example : updateStatusIfNeeded alwaysOk ⟨"K", "ACCEPTED", ["BLOCKED"]⟩ false
    = ([], Except.ok false) := rfl

/-- The backend oracle of a run in which the transition call for issue K1
raises and every other call succeeds. -/
def failOnK1 : String → String → Bool := fun key _ => key != "K1"

lemma updateStatus_of_not_modifiable (transitionOk : String → String → Bool)
    (issue : Issue) (dryrun : Bool)
    (hc : MODIFIABLE_STATUS.contains (upstr issue.status) = false) :
    updateStatusIfNeeded transitionOk issue dryrun = ([], Except.ok false) := by
  unfold updateStatusIfNeeded
  rw [if_neg (by simpa using hc)]

lemma updateStatus_dryrun_eq (transitionOk : String → String → Bool) (issue : Issue) :
    updateStatusIfNeeded transitionOk issue true
      = ([], (updateStatusIfNeeded alwaysOk issue false).2) := by
  simp only [updateStatusIfNeeded, alwaysOk]
  cases hc : MODIFIABLE_STATUS.contains (upstr issue.status)
  · simp
  · simp only [if_true, Bool.not_true, Bool.and_false]
    cases hf : findFirstApplicable issue STATUS_RULES with
    | none => simp
    | some newStatus =>
        cases hb : newStatus != issue.status <;>
          simp [hb]

lemma processIssues_dryrun_eq (transitionOk : String → String → Bool)
    (issues : List Issue) :
    ∀ p q, processIssues transitionOk true issues p q
      = processIssues alwaysOk false issues p q := by
  induction issues with
  | nil => intro p q; rfl
  | cons issue rest ih =>
      intro p q
      simp only [processIssues, updateStatus_dryrun_eq transitionOk issue]
      cases hx : (updateStatusIfNeeded alwaysOk issue false).2 with
      | error e => rfl
      | ok changed => exact ih (p + 1) (q + if changed then 1 else 0)

lemma processIssues_ok_count (transitionOk : String → String → Bool) (dryrun : Bool) :
    ∀ (issues : List Issue) (p q n m : Nat),
      processIssues transitionOk dryrun issues p q = Except.ok (n, m) →
      n = p + issues.length := by
  intro issues
  induction issues with
  | nil =>
      intro p q n m h
      simp only [processIssues] at h
      cases h
      simp
  | cons issue rest ih =>
      intro p q n m h
      simp only [processIssues] at h
      cases hx : (updateStatusIfNeeded transitionOk issue dryrun).2 with
      | error e => rw [hx] at h; cases h
      | ok changed =>
          rw [hx] at h
          have := ih (p + 1) (q + if changed then 1 else 0) n m h
          simp [this, List.length_cons]
          omega

lemma findFirstApplicable_eq_of_first (issue : Issue) (rules : List Rule) :
    ∀ (i : Nat) (hi : i < rules.length),
      ruleApplies issue (rules.get ⟨i, hi⟩) = true →
      (∀ j (hj : j < rules.length), j < i →
          ruleApplies issue (rules.get ⟨j, hj⟩) = false) →
      findFirstApplicable issue rules = some (rules.get ⟨i, hi⟩).1 := by
  induction rules with
  | nil => intro i hi; exact absurd hi (Nat.not_lt_zero i)
  | cons r rest ih =>
      intro i hi hsat hbefore
      obtain ⟨status, rulePolicy, possibleStatus⟩ := r
      cases i with
      | zero =>
          have hs : isRuleApplicable issue rulePolicy possibleStatus = true := hsat
          simp [findFirstApplicable, hs]
      | succ n =>
          have h0 : isRuleApplicable issue rulePolicy possibleStatus = false :=
            hbefore 0 (Nat.succ_pos _) (Nat.succ_pos n)
          simp only [findFirstApplicable, h0, if_false, Bool.false_eq_true]
          exact ih n (Nat.lt_of_succ_lt_succ hi) hsat
            (fun j hj hlt => hbefore (j + 1) (Nat.succ_lt_succ hj) (Nat.succ_lt_succ hlt))

/-- C1 (counterexample): the guard before the transition is a plain
string comparison, not a case-insensitive one.  For the issue with key K,
current status Done (mixed case, as the backend reports it) and no
subtasks, the current status is mutable, the first rule matches with
target DONE, the target equals the current status case-insensitively, and
yet a transition call is issued on a non-dry run. -/
theorem C1_counterexample :
    upstr "Done" ∈ MODIFIABLE_STATUS ∧
    findFirstApplicable ⟨"K", "Done", []⟩ STATUS_RULES = some DONE ∧
    upstr DONE = upstr "Done" ∧
    (updateStatusIfNeeded alwaysOk ⟨"K", "Done", []⟩ false).1 = [("K", DONE)] := by
  refine ⟨by decide, by decide, by decide, by decide⟩

/-- C1 (amended): for every issue with a mutable current status for which
some rule matches, the matched target is compared to the current status by
exact (case-sensitive) string equality; when they are exactly equal, no
transition call is made and no change is recorded, regardless of the
dry-run flag. -/
theorem C1_noop_exact_match (transitionOk : String → String → Bool)
    (issue : Issue) (dryrun : Bool) (t : String)
    (hmatch : findFirstApplicable issue STATUS_RULES = some t)
    (heq : t = issue.status) :
    updateStatusIfNeeded transitionOk issue dryrun = ([], Except.ok false) := by
  subst heq
  unfold updateStatusIfNeeded
  rw [hmatch]
  cases hc : MODIFIABLE_STATUS.contains (upstr issue.status) <;> simp

/-- C1 (witness for the amended theorem): issue K is exactly at the
matched target DONE, so nothing is sent to the backend even on a non-dry
run. -/
theorem C1_noop_exact_match_witness :
    updateStatusIfNeeded alwaysOk ⟨"K", "DONE", ["Done"]⟩ false
      = ([], Except.ok false) :=
  C1_noop_exact_match alwaysOk ⟨"K", "DONE", ["Done"]⟩ false DONE (by decide) rfl

/-- C2: the ALL policy is satisfied iff every subtask status
(uppercase-normalised, which is how the evaluator compares statuses) is a
member of the accepted set; in particular it is vacuously true on an issue
with no subtasks. -/
theorem C2_all_policy (issue : Issue) (acceptedSet : List String) :
    (isRuleApplicable issue RULE_POLICY_ALL acceptedSet = true ↔
       ∀ s ∈ issue.subtaskStatuses, upstr s ∈ acceptedSet) ∧
    (issue.subtaskStatuses = [] →
       isRuleApplicable issue RULE_POLICY_ALL acceptedSet = true) := by
  constructor
  · simp [isRuleApplicable, List.all_eq_true]
  · intro h
    simp [isRuleApplicable, h]

/-- C2 (witness): an issue with no subtasks satisfies an ALL rule it is
tested against. -/
theorem C2_all_policy_witness :
    isRuleApplicable ⟨"K", "TO DO", []⟩ RULE_POLICY_ALL [DONE] = true :=
  (C2_all_policy ⟨"K", "TO DO", []⟩ [DONE]).2 rfl

/-- C3: the AT-LEAST-ONE policy is satisfied iff some subtask status
(uppercase-normalised, which is how the evaluator compares statuses) is a
member of the accepted set; on an issue with no subtasks it is false. -/
theorem C3_at_least_one_policy (issue : Issue) (acceptedSet : List String) :
    (isRuleApplicable issue RULE_POLICY_AT_LEAST_ONE acceptedSet = true ↔
       ∃ s ∈ issue.subtaskStatuses, upstr s ∈ acceptedSet) ∧
    (issue.subtaskStatuses = [] →
       isRuleApplicable issue RULE_POLICY_AT_LEAST_ONE acceptedSet = false) := by
  have hne : RULE_POLICY_AT_LEAST_ONE ≠ RULE_POLICY_ALL := by decide
  constructor
  · simp [isRuleApplicable, hne, List.any_eq_true]
  · intro h
    simp [isRuleApplicable, hne, h]

/-- C3 (witness): an issue with no subtasks satisfies no AT-LEAST-ONE
rule. -/
theorem C3_at_least_one_policy_witness :
    isRuleApplicable ⟨"K", "IN PROGRESS", []⟩ RULE_POLICY_AT_LEAST_ONE [BLOCKED]
      = false :=
  (C3_at_least_one_policy ⟨"K", "IN PROGRESS", []⟩ [BLOCKED]).2 rfl

/-- C4: first-match-wins priority — if rule i of STATUS_RULES is
applicable to an issue and every rule before i is not, the scan returns
rule i and its target becomes the new status; and the table, highest
priority first, is DONE via ALL of the done-equivalent set, TO DO via ALL
of the not-started set, BLOCKED via at least one blocked subtask and
IN PROGRESS via at least one in-progress subtask. -/
theorem C4_first_match_priority (issue : Issue) (i : Fin STATUS_RULES.length)
    (hsat : ruleApplies issue (STATUS_RULES.get i) = true)
    (hmin : ∀ j : Fin STATUS_RULES.length, (j : Nat) < (i : Nat) →
              ruleApplies issue (STATUS_RULES.get j) = false) :
    findFirstApplicable issue STATUS_RULES = some (STATUS_RULES.get i).1 ∧
    STATUS_RULES =
      [ (DONE, (RULE_POLICY_ALL, [DONE, ACCEPTED])),
        (TO_DO, (RULE_POLICY_ALL, [TO_DO])),
        (BLOCKED, (RULE_POLICY_AT_LEAST_ONE, [BLOCKED])),
        (IN_PROGRESS, (RULE_POLICY_AT_LEAST_ONE, [IN_PROGRESS])) ] :=
  ⟨findFirstApplicable_eq_of_first issue STATUS_RULES i.val i.isLt hsat
      (fun j hj hlt => hmin ⟨j, hj⟩ hlt),
    rfl⟩

/-- C4 (witness): an issue whose subtasks satisfy both the BLOCKED rule
and the IN PROGRESS rule is sent to BLOCKED, the earlier entry of the
table. -/
theorem C4_first_match_priority_witness :
    findFirstApplicable ⟨"K", "TO DO", ["BLOCKED", "IN PROGRESS"]⟩ STATUS_RULES
      = some BLOCKED :=
  (C4_first_match_priority ⟨"K", "TO DO", ["BLOCKED", "IN PROGRESS"]⟩
      ⟨2, by decide⟩ (by decide) (by decide)).1

/-- C5: an issue whose current status is not in the mutable set is left
untouched — no transition call, no recorded change — for every subtask
composition and every dry-run flag. -/
theorem C5_protected_status (transitionOk : String → String → Bool)
    (issue : Issue) (dryrun : Bool)
    (h : upstr issue.status ∉ MODIFIABLE_STATUS) :
    updateStatusIfNeeded transitionOk issue dryrun = ([], Except.ok false) := by
  have hc : MODIFIABLE_STATUS.contains (upstr issue.status) = false := by
    simpa using h
  exact updateStatus_of_not_modifiable transitionOk issue dryrun hc

/-- C5 (witness): an ACCEPTED issue is never mutated, here despite a
blocked subtask and a non-dry run. -/
theorem C5_protected_status_witness :
    updateStatusIfNeeded alwaysOk ⟨"K", "ACCEPTED", ["BLOCKED"]⟩ false
      = ([], Except.ok false) :=
  C5_protected_status alwaysOk ⟨"K", "ACCEPTED", ["BLOCKED"]⟩ false (by decide)

/-- C6: with dry-run enabled no transition call is made, the per-issue
change decision equals the one of a non-dry run over the same data (with a
healthy backend), and the per-project counts of a dry run equal those of a
non-dry run. -/
theorem C6_dryrun_guarantee (transitionOk : String → String → Bool) :
    (∀ issue : Issue,
        (updateStatusIfNeeded transitionOk issue true).1 = [] ∧
        (updateStatusIfNeeded transitionOk issue true).2
          = (updateStatusIfNeeded alwaysOk issue false).2) ∧
    (∀ issues : List Issue,
        processProject transitionOk issues true
          = processProject alwaysOk issues false) := by
  constructor
  · intro issue
    rw [updateStatus_dryrun_eq transitionOk issue]
    exact ⟨rfl, rfl⟩
  · intro issues
    exact processIssues_dryrun_eq transitionOk issues 0 0

/-- C7 (counterexample): a subtask status outside the recognised
vocabulary does not make the engine skip the issue.  CANCELLED is not a
supported status, yet the issue with subtasks CANCELLED and BLOCKED is
transitioned to BLOCKED on a non-dry run. -/
theorem C7_counterexample :
    upstr "CANCELLED" ∉ SUPPORTED_STATUS ∧
    (updateStatusIfNeeded alwaysOk ⟨"K", "TO DO", ["CANCELLED", "BLOCKED"]⟩ false).1
      = [("K", BLOCKED)] := by
  refine ⟨by decide, by decide⟩

/-- C7 (amended): an issue whose own current status is outside the
recognised vocabulary is skipped for mutation purposes — no transition
call, no recorded change, no crash — and is still counted as examined
(the examined count advances by one, the changed count by zero); a
subtask with an unrecognised status does not cause a skip, it is merely
never a member of any accepted set. -/
theorem C7_unrecognized_status (transitionOk : String → String → Bool)
    (issue : Issue) (dryrun : Bool)
    (h : upstr issue.status ∉ SUPPORTED_STATUS) :
    updateStatusIfNeeded transitionOk issue dryrun = ([], Except.ok false) ∧
    (∀ rest p q, processIssues transitionOk dryrun (issue :: rest) p q
        = processIssues transitionOk dryrun rest (p + 1) q) := by
  have hm : upstr issue.status ∉ MODIFIABLE_STATUS := by
    intro hx
    exact h (by simp [SUPPORTED_STATUS, List.mem_append, hx])
  have hc : MODIFIABLE_STATUS.contains (upstr issue.status) = false := by
    simpa using hm
  have h1 := updateStatus_of_not_modifiable transitionOk issue dryrun hc
  refine ⟨h1, ?_⟩
  intro rest p q
  simp [processIssues, h1]

/-- C7 (witness for the amended theorem): an issue whose own status is the
unrecognised Cancelled is not transitioned, does not raise, and is counted
as examined with zero changes. -/
theorem C7_unrecognized_status_witness :
    updateStatusIfNeeded alwaysOk ⟨"K", "Cancelled", ["DONE"]⟩ false
      = ([], Except.ok false) ∧
    processIssues alwaysOk false [⟨"K", "Cancelled", ["DONE"]⟩] 0 0
      = Except.ok (1, 0) := by
  have h := C7_unrecognized_status alwaysOk ⟨"K", "Cancelled", ["DONE"]⟩ false
    (by decide)
  exact ⟨h.1, (h.2 [] 0 0).trans rfl⟩

/-- C8 (counterexample): a failing transition call is not caught.  With a
backend whose transition call for K1 raises, the batch holding K1 and K2
aborts with the exception instead of recording K1 as unchanged and
continuing: the same batch under a healthy backend yields two examined and
two changed issues. -/
theorem C8_counterexample :
    processProject failOnK1
      [⟨"K1", "TO DO", ["BLOCKED"]⟩, ⟨"K2", "TO DO", ["BLOCKED"]⟩] false
      = Except.error "K1" ∧
    processProject alwaysOk
      [⟨"K1", "TO DO", ["BLOCKED"]⟩, ⟨"K2", "TO DO", ["BLOCKED"]⟩] false
      = Except.ok (2, 2) := ⟨rfl, rfl⟩

/-- C8 (amended): when the transition call for an issue fails, the raised
exception propagates out of updateStatusIfNeeded uncaught, so the whole
batch aborts with that exception and the remaining issues are never
evaluated; only per-project search failures are caught and skipped. -/
theorem C8_transition_failure_aborts (transitionOk : String → String → Bool)
    (issue : Issue) (dryrun : Bool) (e : String)
    (h : (updateStatusIfNeeded transitionOk issue dryrun).2 = Except.error e) :
    (∀ rest p q, processIssues transitionOk dryrun (issue :: rest) p q
        = Except.error e) ∧
    (∀ (search : String → Except String (List Issue)) (p : String)
        (ps : List String) (err : String), search p = Except.error err →
        runProjects search transitionOk dryrun (p :: ps)
          = runProjects search transitionOk dryrun ps) := by
  constructor
  · intro rest p q
    simp [processIssues, h]
  · intro search p ps err hs
    simp [runProjects, hs]

/-- C8 (witness for the amended theorem): the failing transition for K1
aborts the batch before K2 is reached. -/
theorem C8_transition_failure_aborts_witness :
    processIssues failOnK1 false
      [⟨"K1", "TO DO", ["BLOCKED"]⟩, ⟨"K2", "TO DO", ["BLOCKED"]⟩] 0 0
      = Except.error "K1" :=
  (C8_transition_failure_aborts failOnK1 ⟨"K1", "TO DO", ["BLOCKED"]⟩ false "K1"
      rfl).1 [⟨"K2", "TO DO", ["BLOCKED"]⟩] 0 0

/-- C9: at most one transition call is issued per issue per run, whatever
the backend, the issue and the dry-run flag. -/
theorem C9_single_transition (transitionOk : String → String → Bool)
    (issue : Issue) (dryrun : Bool) :
    (updateStatusIfNeeded transitionOk issue dryrun).1.length ≤ 1 := by
  unfold updateStatusIfNeeded
  repeat' split
  all_goals simp

/-- C10: the per-project fetch is issued with maxResults=1000, so at most
1000 issues are returned and the examined count of a completed per-project
pass is exactly the capped count min 1000 of the backend matches — issues
beyond the cap are never evaluated. -/
theorem C10_fetch_cap (backendIssues : List Issue) :
    (searchIssues backendIssues).length ≤ MAX_RESULTS ∧
    searchIssues backendIssues = backendIssues.take MAX_RESULTS ∧
    (∀ (transitionOk : String → String → Bool) (dryrun : Bool) (n m : Nat),
       processProject transitionOk (searchIssues backendIssues) dryrun
         = Except.ok (n, m) →
       n = min MAX_RESULTS backendIssues.length) := by
  refine ⟨?_, rfl, ?_⟩
  · simp [searchIssues, List.length_take]
  · intro transitionOk dryrun n m h
    have := processIssues_ok_count transitionOk dryrun
      (searchIssues backendIssues) 0 0 n m h
    simpa [searchIssues, List.length_take] using this

/-- C10 (witness): a backend with one matching issue yields one examined
issue, the capped count. -/
theorem C10_fetch_cap_witness :
    (1 : Nat) = min MAX_RESULTS ([(⟨"K", "ACCEPTED", []⟩ : Issue)].length) :=
  (C10_fetch_cap [⟨"K", "ACCEPTED", []⟩]).2.2 alwaysOk true 1 0 rfl
